import Mathlib

/-!
Verification development for the sympaathy-v2 single-page site.

The definitions below are a shallow embedding of the repository's
JavaScript sources:

* `src/unnamed/part_000` (the application: CMS client, view-model
  builder `buildDataFromCms`, session cache, bootstrap orchestrator
  `App`/`load`, `inferVideo`);
* `src/scripts/generate_bootstrap.mjs` (the build-time bootstrap
  script);
* `src/src/components/MediaSlider.jsx` (slider state machine);
* `src/src/hooks/useScramble.js` (text-scramble state machine).

Modelling conventions: JS strings are `String`; JS numbers used as
timestamps, intervals and sort keys are `Int` (they are integral in the
code); a possibly-missing field is `Option`; string truthiness is
`≠ ""`; object-field assignment `obj[k] = v` on a plain JS object is
`jsObjSet` on an association list (replace the binding in place, else
append). Network and timer effects are passed in explicitly (posts per
section id as a function, fetch results as `Option`, timer firings as
events).
-/

namespace Sympaathy

/-- JS plain-object read `m[k]`: the value bound to `k`, if any. -/
def jsGet {β : Type} : List (String × β) → String → Option β
  | [], _ => none
  | (k', v) :: rest, k => if k = k' then some v else jsGet rest k

/-- JS plain-object assignment `m[k] = v`: replace the (unique) binding
of `k` in place if present, otherwise append the new binding. -/
def jsObjSet {β : Type} (m : List (String × β)) (k : String) (v : β) :
    List (String × β) :=
  match m with
  | [] => [(k, v)]
  | (k', v') :: rest =>
      if k' = k then (k, v) :: rest else (k', v') :: jsObjSet rest k v

/-- Stable insertion by an integer key: the inserted element goes before
the first element with a key `≥` its own never jumping over an equal
key. Together with `sortByKey` this is the unique stable sort by the
comparator `(a, b) => keyOf a - keyOf b`, which is what
`Array.prototype.sort` (stable per the ECMAScript spec) computes in the
builders. -/
def insertByKey {α : Type} (keyOf : α → Int) (a : α) : List α → List α
  | [] => [a]
  | b :: l =>
      if keyOf a ≤ keyOf b then a :: b :: l else b :: insertByKey keyOf a l

/-- Stable sort by an integer key (models the stable
`Array.prototype.sort` with comparator `(a.order ?? 0) - (b.order ?? 0)`). -/
def sortByKey {α : Type} (keyOf : α → Int) : List α → List α
  | [] => []
  | a :: l => insertByKey keyOf a (sortByKey keyOf l)

/-! ## CMS data model (`part_000` lines 83-227, `generate_bootstrap.mjs`) -/

/-- A content block `{type, content, metadata}`. `images` models
`metadata.images` after the per-item projection `i => i?.url`: `none`
when `metadata.images` is not an array, and each missing url is `""`
(both are dropped by `filter(Boolean)`). -/
structure Block where
  type : String := ""
  content : String := ""
  images : Option (List String) := none
deriving DecidableEq, Repr

/-- A CMS post `{id, slug, title, order, blocks[]}`; `blocks` is `none`
when the field is not an array. -/
structure Post where
  id : String := ""
  slug : String := ""
  title : String := ""
  order : Option Int := none
  blocks : Option (List Block) := none
deriving DecidableEq, Repr

/-- A CMS section `{id, slug}`. -/
structure Section' where
  id : String := ""
  slug : String := ""
deriving DecidableEq, Repr

/-- `firstBlockOfType(blocks, type)`: first block matching the type, or
null (`Array.isArray` guard included). -/
def firstBlockOfType (blocks : Option (List Block)) (t : String) :
    Option Block :=
  match blocks with
  | some bs => bs.find? (fun b => b.type == t)
  | none => none

/-- `slideshowUrls(block)`: the image urls of a slideshow block,
dropping falsy entries; `[]` when `metadata.images` is malformed. -/
def slideshowUrls (b : Block) : List String :=
  match b.images with
  | some imgs => imgs.filter (fun u => u != "")
  | none => []

/-! ## View models -/

structure Release where
  href : String
  title : String
  image : String
  order : Int
deriving DecidableEq, Repr

structure LiveCard where
  slug : String
  title : String
  image : String
  order : Int
deriving DecidableEq, Repr

structure VideoRef where
  type : String
  src : String
  title : String
deriving DecidableEq, Repr

structure LiveDetail where
  title : String
  video : Option VideoRef
  primaryImages : Option (List String)
  secondaryImages : Option (List String)
deriving DecidableEq, Repr

structure BioSection where
  order : Int
  title : String
  html : String
deriving DecidableEq, Repr

structure ContactLink where
  order : Int
  label : String
  href : String
  is_external : Bool
deriving DecidableEq, Repr

/-- The streaming-host alternatives of the video regexes
`/(youtube\.com|youtu\.be|vimeo\.com|player\.vimeo\.com)/`. -/
def streamingHosts : List String :=
  ["youtube.com", "youtu.be", "vimeo.com", "player.vimeo.com"]

/-- The whitespace characters `String.prototype.trim` strips (ASCII
subset; the repository's URLs and type tags are ASCII). -/
def isJsWs (c : Char) : Bool :=
  [' ', '\t', '\n', '\r', '\x0b', '\x0c'].contains c

/-- `s.trim()` over the character list (the built-in `String.trim`
is opaque to kernel reduction). -/
def jsTrim (s : String) : String :=
  ⟨((s.toList.dropWhile isJsWs).reverse.dropWhile isJsWs).reverse⟩

/-- ASCII lowercasing of one character. -/
def toLowerChar (c : Char) : Char :=
  if 65 ≤ c.toNat ∧ c.toNat ≤ 90 then Char.ofNat (c.toNat + 32) else c

/-- `s.toLowerCase()` over the character list. -/
def jsToLower (s : String) : String :=
  ⟨s.toList.map toLowerChar⟩

/-- Whether `sub` is a prefix of `l` (character lists). -/
def listHasPrefix : List Char → List Char → Bool
  | _, [] => true
  | [], _ :: _ => false
  | a :: l, b :: sub => a == b && listHasPrefix l sub

/-- Whether `sub` occurs contiguously inside `l`. -/
def listHasSub : List Char → List Char → Bool
  | [], sub => sub.isEmpty
  | a :: t, sub => listHasPrefix (a :: t) sub || listHasSub t sub

/-- Substring containment (what `/host/.test(s)` checks for the literal
host alternatives). -/
def containsSub (s sub : String) : Bool :=
  listHasSub s.toList sub.toList

/-- `s.startsWith(pre)`. -/
def jsStartsWith (s pre : String) : Bool :=
  listHasPrefix s.toList pre.toList

/-- `s.endsWith(suf)` (regex `suf$`). -/
def jsEndsWith (s suf : String) : Bool :=
  listHasPrefix s.toList.reverse suf.toList.reverse

/-- `isExternalHref`: case-insensitive test for an
`http(s)://`, `mailto:` or `tel:` prefix on the trimmed href. -/
def isExternalHref (href : String) : Bool :=
  let s := jsToLower (jsTrim href)
  jsStartsWith s "http://" || jsStartsWith s "https://" ||
    jsStartsWith s "mailto:" || jsStartsWith s "tel:"

/-- Case-insensitive streaming-host test: the detail-map path applies
the regex with the `i` flag, so we test on the lowercased source. -/
def isStreamingUrl (s : String) : Bool :=
  streamingHosts.any (fun h => containsSub (jsToLower s) h)

/-- Video classification of the live-detail block path (`part_000`
lines 166-172 and `generate_bootstrap.mjs` lines 99-105): trim the
block content; empty is null; a streaming-host match is an `iframe`,
anything else a `video`. -/
def classifyVideo (content : String) (title : String) : Option VideoRef :=
  let videoSrc := jsTrim content
  if videoSrc = "" then none
  else if isStreamingUrl videoSrc then some ⟨"iframe", videoSrc, title⟩
  else some ⟨"video", videoSrc, title⟩

/-- One live post's entry of the live detail map (`part_000` lines
162-176): first/second slideshow blocks (null when absent), classified
first video block, and title falling back to the slug. -/
def liveDetailOf (p : Post) : LiveDetail :=
  let slideshows := (p.blocks.getD []).filter (fun b => b.type == "slideshow")
  let primaryImages := (slideshows[0]?).map slideshowUrls
  let secondaryImages := (slideshows[1]?).map slideshowUrls
  let videoContent := ((firstBlockOfType p.blocks "video").map Block.content).getD ""
  { title := if p.title = "" then p.slug else p.title
    video := classifyVideo videoContent p.title
    primaryImages := primaryImages
    secondaryImages := secondaryImages }

/-- `liveDetailMap`: `livePosts.reduce((acc, p) => { ...; acc[p.slug] = entry; return acc }, {})`. -/
def liveDetailMapOf (posts : List Post) : List (String × LiveDetail) :=
  posts.foldl (fun acc p => jsObjSet acc p.slug (liveDetailOf p)) []

/-- The mapped release row (`part_000` lines 137-145) before filtering. -/
def releaseRowOf (p : Post) : Release :=
  { href := ((firstBlockOfType p.blocks "link").map Block.content).getD ""
    title := p.title
    image := ((firstBlockOfType p.blocks "image").map Block.content).getD ""
    order := p.order.getD 0 }

/-- Mapped and filtered releases, in input order (before the sort). -/
def releasesPre (posts : List Post) : List Release :=
  (posts.map releaseRowOf).filter (fun r => r.href != "" && r.title != "")

/-- `releases` view model: map, filter on truthy href and title, stable
sort ascending by order. -/
def releasesOf (posts : List Post) : List Release :=
  sortByKey (fun r => r.order) (releasesPre posts)

/-- The mapped live card (`part_000` lines 150-157). -/
def liveCardOf (p : Post) : LiveCard :=
  { slug := p.slug
    title := p.title
    image := ((firstBlockOfType p.blocks "image").map Block.content).getD ""
    order := p.order.getD 0 }

/-- Mapped and filtered live cards, in input order. -/
def liveProjectsPre (posts : List Post) : List LiveCard :=
  (posts.map liveCardOf).filter (fun r => r.slug != "")

/-- `liveProjects` view model. -/
def liveProjectsOf (posts : List Post) : List LiveCard :=
  sortByKey (fun r => r.order) (liveProjectsPre posts)

/-- The mapped bio section (`part_000` lines 181-183). -/
def bioRowOf (p : Post) : BioSection :=
  { order := p.order.getD 0
    title := p.title
    html := ((firstBlockOfType p.blocks "text").map Block.content).getD "" }

/-- Mapped and filtered bio sections, in input order. -/
def bioSectionsPre (posts : List Post) : List BioSection :=
  (posts.map bioRowOf).filter (fun s => s.title != "")

/-- `bioSections` view model. -/
def bioSectionsOf (posts : List Post) : List BioSection :=
  sortByKey (fun s => s.order) (bioSectionsPre posts)

/-- The mapped contact link (`part_000` lines 192-193). -/
def contactRowOf (p : Post) : ContactLink :=
  let href := ((firstBlockOfType p.blocks "link").map Block.content).getD ""
  { order := p.order.getD 0
    label := p.title
    href := href
    is_external := isExternalHref href }

/-- Mapped and filtered contact links, in input order. -/
def contactLinksPre (posts : List Post) : List ContactLink :=
  (posts.map contactRowOf).filter (fun l => l.label != "" && l.href != "")

/-- `contactLinks` view model. -/
def contactLinksOf (posts : List Post) : List ContactLink :=
  sortByKey (fun l => l.order) (contactLinksPre posts)

/-- `landingSlides`: urls of the first slideshow block of the first
landing post, else `[]`. -/
def landingSlidesOf (posts : List Post) : List String :=
  match (match posts[0]? with
         | some p => firstBlockOfType p.blocks "slideshow"
         | none => none) with
  | some b => slideshowUrls b
  | none => []

/-- The bootstrap bundle of all six view models. -/
structure Bundle where
  landingSlides : List String
  releases : List Release
  liveProjects : List LiveCard
  liveDetailMap : List (String × LiveDetail)
  bioSections : List BioSection
  contactLinks : List ContactLink
deriving DecidableEq, Repr

/-! ## Section resolution (`part_000` lines 100-115,
`generate_bootstrap.mjs` lines 49-64) -/

/-- `bySlug`: `sections.forEach(s => { if (s?.slug) bySlug[s.slug] = s })`
(identical in the app and in the script). -/
def buildBySlug (sections : List Section') : List (String × Section') :=
  sections.foldl
    (fun acc s => if s.slug = "" then acc else jsObjSet acc s.slug s) []

/-- The five required section slugs, in the order the code resolves
them. -/
def requiredSlugs : List String :=
  ["landing", "releases", "live", "bio", "contact"]

/-- App-side `requireSection(slug)`: throw `Missing section: <slug>`
when `bySlug` has no entry. -/
def requireSection (bySlug : List (String × Section')) (slug : String) :
    Except String Section' :=
  match jsGet bySlug slug with
  | some s => .ok s
  | none => .error ("Missing section: " ++ slug)

/-- Script-side `requireSectionId(slug)`: throw
`Missing section slug: <slug>` when `bySlug` has no entry **or** the
entry's `id` is falsy (`if (!s?.id) throw`). -/
def requireSectionId (bySlug : List (String × Section')) (slug : String) :
    Except String String :=
  match jsGet bySlug slug with
  | some s =>
      if s.id = "" then .error ("Missing section slug: " ++ slug)
      else .ok s.id
  | none => .error ("Missing section slug: " ++ slug)

/-- `buildDataFromCms` with the network abstracted: `sections` is the
parsed `/sections` response and `postsOf` gives the parsed posts of a
section id (`data.posts || []`). The function resolves the five
required sections in order and then builds the six view models. -/
def buildDataFromCms (sections : List Section') (postsOf : String → List Post) :
    Except String Bundle := do
  let bySlug := buildBySlug sections
  let landingSection ← requireSection bySlug "landing"
  let releasesSection ← requireSection bySlug "releases"
  let liveSection ← requireSection bySlug "live"
  let bioSection ← requireSection bySlug "bio"
  let contactSection ← requireSection bySlug "contact"
  let landingPosts := postsOf landingSection.id
  let releasePosts := postsOf releasesSection.id
  let livePosts := postsOf liveSection.id
  let bioPosts := postsOf bioSection.id
  let contactPosts := postsOf contactSection.id
  return { landingSlides := landingSlidesOf landingPosts
           releases := releasesOf releasePosts
           liveProjects := liveProjectsOf livePosts
           liveDetailMap := liveDetailMapOf livePosts
           bioSections := bioSectionsOf bioPosts
           contactLinks := contactLinksOf contactPosts }

/-- `buildBootstrap` of `generate_bootstrap.mjs` (same builders, but
section resolution through `requireSectionId`). -/
def buildBootstrap (sections : List Section') (postsOf : String → List Post) :
    Except String Bundle := do
  let bySlug := buildBySlug sections
  let landingId ← requireSectionId bySlug "landing"
  let releasesId ← requireSectionId bySlug "releases"
  let liveId ← requireSectionId bySlug "live"
  let bioId ← requireSectionId bySlug "bio"
  let contactId ← requireSectionId bySlug "contact"
  let landingPosts := postsOf landingId
  let releasePosts := postsOf releasesId
  let livePosts := postsOf liveId
  let bioPosts := postsOf bioId
  let contactPosts := postsOf contactId
  return { landingSlides := landingSlidesOf landingPosts
           releases := releasesOf releasePosts
           liveProjects := liveProjectsOf livePosts
           liveDetailMap := liveDetailMapOf livePosts
           bioSections := bioSectionsOf bioPosts
           contactLinks := contactLinksOf contactPosts }

/-- `main().catch(err => process.exit(1))`: the script's exit status is
1 exactly when the build rejected. -/
def scriptExitCode (r : Except String Bundle) : Nat :=
  match r with
  | .ok _ => 0
  | .error _ => 1

/-! ## Standalone row-based video inference (`part_000` lines 208-227) -/

/-- A spreadsheet row of the legacy data path. -/
structure VideoRow where
  video_src : String := ""
  video_type : String := ""
  video_title : String := ""
  title : String := ""
deriving DecidableEq, Repr

/-- The local-video test
`/\.(mp4|mov|webm|ogg)(\?.*)?$/.test(lower)`: the lowercased source
ends with one of the extensions or contains `.<ext>?`. -/
def hasLocalVideoExt (lower : String) : Bool :=
  ["mp4", "mov", "webm", "ogg"].any (fun e =>
    jsEndsWith lower ("." ++ e) || containsSub lower ("." ++ e ++ "?"))

/-- `inferVideo(row)`: empty trimmed source is null; an explicit
non-`none` `video_type` is trusted; otherwise streaming hosts become
`iframe`, local files and path-rooted URLs become `video`, anything
else null. -/
def inferVideo (row : VideoRow) : Option VideoRef :=
  let videoSrc := jsTrim row.video_src
  if videoSrc = "" then none
  else
    let explicitType := jsToLower (jsTrim row.video_type)
    let vtitle := if row.video_title ≠ "" then row.video_title else row.title
    if explicitType ≠ "" ∧ explicitType ≠ "none" then
      some ⟨explicitType, videoSrc, vtitle⟩
    else
      let lower := jsToLower videoSrc
      let isLocalVideo := hasLocalVideoExt lower ||
        jsStartsWith lower "/images/" || jsStartsWith lower "/videos/" ||
        jsStartsWith lower "/"
      let isIframe := streamingHosts.any (fun h => containsSub lower h)
      if isIframe then some ⟨"iframe", videoSrc, vtitle⟩
      else if isLocalVideo then some ⟨"video", videoSrc, vtitle⟩
      else none

/-! ## Session cache (`part_000` lines 21-51) -/

/-- `CACHE_TTL = 1 * 60 * 1000`. -/
def CACHE_TTL : Int := 1 * 60 * 1000

/-- The bootstrap cache key
`cms_bootstrap_v2_${CMS_SITE_ID || 'auto'}`. -/
def BOOTSTRAP_CACHE_KEY (siteId : String) : String :=
  "cms_bootstrap_v2_" ++ (if siteId = "" then "auto" else siteId)

/-- One stored sessionStorage value, after `JSON.parse`: a well-formed
`{data, timestamp}` pair, a pair whose `timestamp` is not a number, or
an unparsable blob (`JSON.parse` throws). -/
inductive CacheBlob (α : Type)
  | valid (data : α) (timestamp : Int)
  | badTimestamp (data : α)
  | corrupt
deriving DecidableEq

/-- A sessionStorage snapshot. -/
abbrev CacheStore (α : Type) := List (String × CacheBlob α)

/-- `getCachedEntry(key)`: null on missing key, parse failure or
non-numeric timestamp. -/
def getCachedEntry {α : Type} (store : CacheStore α) (key : String) :
    Option (α × Int) :=
  match jsGet store key with
  | some (.valid d t) => some (d, t)
  | some (.badTimestamp _) => none
  | some .corrupt => none
  | none => none

/-- `getCachedFresh(key)`: additionally null when
`now - timestamp > CACHE_TTL`. -/
def getCachedFresh {α : Type} (store : CacheStore α) (key : String)
    (now : Int) : Option α :=
  match getCachedEntry store key with
  | some (d, t) => if now - t > CACHE_TTL then none else some d
  | none => none

/-- `getCachedAny(key)`: `getCachedEntry(key)?.data ?? null`. -/
def getCachedAny {α : Type} (store : CacheStore α) (key : String) :
    Option α :=
  (getCachedEntry store key).map (fun e => e.1)

/-- `setCached(key, data)`: store `{data, timestamp: now}`. -/
def setCached {α : Type} (store : CacheStore α) (key : String) (d : α)
    (now : Int) : CacheStore α :=
  jsObjSet store key (.valid d now)

/-! ## Bootstrap orchestrator (`part_000` lines 663-710) -/

/-- The six view-model states plus the loaded flag of `App`. -/
structure AppState where
  landingSlides : List String := []
  releases : List Release := []
  liveProjects : List LiveCard := []
  liveDetailMap : List (String × LiveDetail) := []
  bioSections : List BioSection := []
  contactLinks : List ContactLink := []
  dataLoaded : Bool := false
deriving DecidableEq

/-- Populating all six states from a bundle plus `setDataLoaded(true)`. -/
def applyBundle (b : Bundle) : AppState :=
  { landingSlides := b.landingSlides
    releases := b.releases
    liveProjects := b.liveProjects
    liveDetailMap := b.liveDetailMap
    bioSections := b.bioSections
    contactLinks := b.contactLinks
    dataLoaded := true }

/-- The `load` orchestration: phase 1 hydrates from `getCachedFresh`
only; phase 2 applies the fetch result when it resolved, writes the
cache, and on rejection runs `if (!cached) setDataLoaded(false)`.
`fetchResult` is `none` when `buildDataFromCms` rejected. Returns the
final state and the cache store. -/
def load (store : CacheStore Bundle) (key : String) (now : Int)
    (fetchResult : Option Bundle) : AppState × CacheStore Bundle :=
  let cached := getCachedFresh store key now
  let st1 : AppState :=
    match cached with
    | some c => applyBundle c
    | none => {}
  match fetchResult with
  | some data => (applyBundle data, setCached store key data now)
  | none =>
      (if cached.isNone then { st1 with dataLoaded := false } else st1, store)

/-! ## Slider state machine (`MediaSlider.jsx`)

The slider's observable timer behaviour is a discrete-event system.
State events are: a manual navigation (`goPrev`/`goNext` click at time
`t`), a pause-clear timer firing (the `setTimeout(.., 3000)` scheduled
by a navigation), and the autoplay timeout firing. React effect
semantics embedded here: the autoplay effect re-runs exactly when one
of its dependencies (`lastManualNavigation`, `autoPlayPaused`; `files`
and `intervalMs` are constant here) changes; the cleanup clears the
pending autoplay timeout and the body schedules a new one unless
`!intervalMs || files.length <= 1 || autoPlayPaused`. A live autoplay
timeout implies no dependency changed since it was armed, so the
closure's captured `lastManualNavigation` equals the state's. -/

structure SliderCfg where
  count : Nat
  intervalMs : Int
deriving DecidableEq

structure SliderSt where
  paused : Bool
  index : Nat
  lastNav : Int
  resumeAt : List Int
  autoAt : Option Int
deriving DecidableEq

/-- Autoplay effect body at time `t`: schedule the next advance after
`Math.max(intervalMs, intervalMs - (Date.now() - lastManualNavigation))`
unless the guard returns early (the cleanup already cleared any pending
timeout). -/
def rearmAuto (cfg : SliderCfg) (t : Int) (st : SliderSt) : SliderSt :=
  if cfg.intervalMs ≠ 0 ∧ 1 < cfg.count ∧ st.paused = false then
    { st with
      autoAt := some (t + max cfg.intervalMs (cfg.intervalMs - (t - st.lastNav))) }
  else { st with autoAt := none }

inductive SliderEv
  | nav (isNext : Bool) (t : Int)
  | resumeFire (t : Int)
  | autoFire (t : Int)

/-- One event step. `nav`: `goPrev`/`goNext` — pause, move the index
with wraparound, record the timestamp, arm an uncancellable 3000 ms
pause-clear timer; the effect then re-runs (its dependencies changed)
and, seeing the pause, leaves no autoplay timeout. `resumeFire`: a
pause-clear timer fires, `setAutoPlayPaused(false)`; the effect re-runs
only if the flag actually changed. `autoFire`: the autoplay timeout
advances the index and re-schedules itself (`scheduleNext`). -/
def sliderStep (cfg : SliderCfg) (st : SliderSt) (ev : SliderEv) : SliderSt :=
  match ev with
  | .nav isNext t =>
      if cfg.count = 0 then st
      else
        let idx := if isNext then (st.index + 1) % cfg.count
                   else (st.index + cfg.count - 1) % cfg.count
        let rerun := st.paused = false ∨ st.lastNav ≠ t
        let st' := { st with
          paused := true, index := idx, lastNav := t,
          resumeAt := st.resumeAt ++ [t + 3000] }
        if rerun then rearmAuto cfg t st' else st'
  | .resumeFire t =>
      if t ∈ st.resumeAt then
        let st' := { st with paused := false, resumeAt := st.resumeAt.erase t }
        if st.paused then rearmAuto cfg t st' else st'
      else st
  | .autoFire t =>
      if st.autoAt = some t ∧ st.paused = false then
        { st with
          index := (st.index + 1) % cfg.count,
          autoAt := some (t + max cfg.intervalMs (cfg.intervalMs - (t - st.lastNav))) }
      else st

/-- Mount at time 0: indices and flags at their `useState` initial
values, then the autoplay effect runs once. -/
def sliderInit (cfg : SliderCfg) : SliderSt :=
  rearmAuto cfg 0
    { paused := false, index := 0, lastNav := 0, resumeAt := [], autoAt := none }

/-- Run a time-ordered event list from mount. -/
def sliderRun (cfg : SliderCfg) (evs : List SliderEv) : SliderSt :=
  evs.foldl (sliderStep cfg) (sliderInit cfg)

/-! ## Scramble animation (`useScramble.js`)

`TextScramble` embedded with its randomness passed in: `randS i` and
`randE i` supply `Math.floor(Math.random() * 30)` and `* 20` for
character `i`; `coin i` supplies the 15% re-randomize draw and `pick i`
the glyph choice during `update`. `fromStr`/`toStr` model the JS
`from`/`to` fields and `stop` the JS `end` field (both Lean keywords);
`frameReq` is whether a `requestAnimationFrame` callback is pending. -/

structure ScrChar where
  fromStr : String
  toStr : String
  start : Nat
  stop : Nat
  glitch : Option String
deriving DecidableEq, Repr

structure Scrambler where
  isAnimating : Bool
  queue : List ScrChar
  frame : Nat
  frameReq : Bool
deriving DecidableEq

/-- The fixed substitution alphabet `'░▒▓│┌┐└┘╭╮╯╰'`. -/
def scrambleChars : List String :=
  ["░", "▒", "▓", "│", "┌", "┐", "└", "┘", "╭", "╮", "╯", "╰"]

/-- `oldText[i] || ''`. -/
def charAt (s : String) (i : Nat) : String :=
  match s.toList[i]? with
  | some c => c.toString
  | none => ""

/-- One `update()` call: per character, at/after its end frame count it
complete; in its window keep or re-randomize the glitch glyph;
otherwise show the original. On full completion resolve and clear
`isAnimating`, else request the next frame and advance the counter. -/
def scrUpdateOnce (coin : Nat → Bool) (pick : Nat → Nat) (s : Scrambler) :
    Scrambler :=
  let queue' := s.queue.enum.map (fun (p : Nat × ScrChar) =>
    let i := p.1
    let it := p.2
    if it.stop ≤ s.frame then it
    else if it.start ≤ s.frame then
      match it.glitch with
      | some c =>
          if coin i then
            { it with glitch := some (scrambleChars.getD (pick i % 12) "░") }
          else { it with glitch := some c }
      | none =>
          { it with glitch := some (scrambleChars.getD (pick i % 12) "░") }
    else it)
  let complete := (s.queue.filter (fun it => decide (it.stop ≤ s.frame))).length
  if complete = s.queue.length then
    { s with queue := queue', isAnimating := false, frameReq := false }
  else
    { s with queue := queue', frameReq := true, frame := s.frame + 1 }

/-- `setText(newText)`: return unchanged when `isAnimating` (the
guard); otherwise build the per-character queue with randomized start
and end frames, cancel a pending frame, reset the frame counter to 0
and run `update()` once. `oldText` is the element text at call time. -/
def scrSetText (s : Scrambler) (oldText newText : String)
    (randS randE : Nat → Nat) (coin : Nat → Bool) (pick : Nat → Nat) :
    Scrambler :=
  if s.isAnimating then s
  else
    let len := max oldText.length newText.length
    let q := (List.range len).map (fun i =>
      let st := randS i % 30
      { fromStr := charAt oldText i
        toStr := charAt newText i
        start := st
        stop := st + randE i % 20
        glitch := none : ScrChar })
    scrUpdateOnce coin pick { s with queue := q, frameReq := false, frame := 0 }

inductive ScrOp
  | setT (oldText newText : String) (randS randE : Nat → Nat)
      (coin : Nat → Bool) (pick : Nat → Nat)
  | frameT (coin : Nat → Bool) (pick : Nat → Nat)
  | cleanupT

/-- One operation on a scramble element: a `setText` request, a pending
animation-frame callback firing, or the hook cleanup (which writes
`isAnimating = false`). -/
def scrStep (s : Scrambler) (op : ScrOp) : Scrambler :=
  match op with
  | .setT o n rs re c p => scrSetText s o n rs re c p
  | .frameT c p => if s.frameReq then scrUpdateOnce c p s else s
  | .cleanupT => { s with isAnimating := false }

/-- Constructor state: `isAnimating = false`, empty queue. -/
def scrInit : Scrambler :=
  { isAnimating := false, queue := [], frame := 0, frameReq := false }

/-- Run an operation sequence from construction. -/
def scrRun (ops : List ScrOp) : Scrambler :=
  ops.foldl scrStep scrInit

/-! ## Helper lemmas -/

lemma find?_cons_pos {α : Type} (p : α → Bool) (a : α) (l : List α)
    (h : p a = true) : List.find? p (a :: l) = some a := by
  simp [List.find?_cons, h]

lemma find?_cons_neg {α : Type} (p : α → Bool) (a : α) (l : List α)
    (h : p a = false) : List.find? p (a :: l) = List.find? p l := by
  simp [List.find?_cons, h]

lemma jsGet_jsObjSet_self {β : Type} (m : List (String × β)) (k : String)
    (v : β) : jsGet (jsObjSet m k v) k = some v := by
  induction m with
  | nil => simp [jsObjSet, jsGet]
  | cons p rest ih =>
      obtain ⟨k', v'⟩ := p
      by_cases h : k' = k
      · simp [jsObjSet, h, jsGet]
      · simp [jsObjSet, h, jsGet, Ne.symm h, ih]

lemma jsGet_jsObjSet_ne {β : Type} (m : List (String × β)) (k k' : String)
    (v : β) (h : k' ≠ k) :
    jsGet (jsObjSet m k v) k' = jsGet m k' := by
  induction m with
  | nil => simp [jsObjSet, jsGet, h]
  | cons p rest ih =>
      obtain ⟨k₀, v₀⟩ := p
      by_cases h0 : k₀ = k
      · subst h0
        simp [jsObjSet, jsGet, h]
      · by_cases h1 : k' = k₀
        · subst h1
          simp [jsObjSet, h0, jsGet]
        · simp [jsObjSet, h0, jsGet, h1, ih]

lemma mem_keys_jsObjSet {β : Type} (m : List (String × β)) (k a : String)
    (v : β) :
    a ∈ (jsObjSet m k v).map Prod.fst ↔ a = k ∨ a ∈ m.map Prod.fst := by
  induction m with
  | nil => simp [jsObjSet]
  | cons p rest ih =>
      obtain ⟨k₀, v₀⟩ := p
      by_cases h0 : k₀ = k
      · subst h0
        simp [jsObjSet]
      · simp [jsObjSet, h0, ih]
        tauto

lemma jsGet_isSome_iff_mem_keys {β : Type} (m : List (String × β))
    (a : String) : (jsGet m a).isSome ↔ a ∈ m.map Prod.fst := by
  induction m with
  | nil => simp [jsGet]
  | cons p rest ih =>
      obtain ⟨k₀, v₀⟩ := p
      by_cases h : a = k₀
      · simp [jsGet, h]
      · simp [jsGet, h, ih]

lemma liveDetailMapOf_append (ps : List Post) (p : Post) :
    liveDetailMapOf (ps ++ [p]) =
      jsObjSet (liveDetailMapOf ps) p.slug (liveDetailOf p) := by
  simp [liveDetailMapOf, List.foldl_append]

lemma jsGet_liveDetailMapOf (posts : List Post) (s : String) :
    jsGet (liveDetailMapOf posts) s =
      (posts.reverse.find? (fun p => p.slug == s)).map liveDetailOf := by
  induction posts using List.reverseRecOn with
  | nil => simp [liveDetailMapOf, jsGet]
  | append_singleton ps p ih =>
      rw [liveDetailMapOf_append, List.reverse_append, List.reverse_singleton,
        List.singleton_append]
      by_cases h : p.slug = s
      · rw [find?_cons_pos (fun q => q.slug == s) p ps.reverse (by simp [h]),
          ← h, jsGet_jsObjSet_self]
        rfl
      · rw [find?_cons_neg (fun q => q.slug == s) p ps.reverse (by simp [h]),
          jsGet_jsObjSet_ne _ _ _ _ (Ne.symm h)]
        exact ih

lemma buildBySlug_append (secs : List Section') (s : Section') :
    buildBySlug (secs ++ [s]) =
      if s.slug = "" then buildBySlug secs
      else jsObjSet (buildBySlug secs) s.slug s := by
  simp [buildBySlug, List.foldl_append]

lemma jsGet_buildBySlug (sections : List Section') (sl : String)
    (h : sl ≠ "") :
    jsGet (buildBySlug sections) sl =
      sections.reverse.find? (fun s => s.slug == sl) := by
  induction sections using List.reverseRecOn with
  | nil => simp [buildBySlug, jsGet]
  | append_singleton secs s ih =>
      rw [buildBySlug_append, List.reverse_append, List.reverse_singleton,
        List.singleton_append]
      by_cases h0 : s.slug = ""
      · have hb : (fun x => Section'.slug x == sl) s = false := by
          simp [h0]
          exact fun hc => h hc.symm
        rw [if_pos h0, find?_cons_neg _ s secs.reverse hb]
        exact ih
      · by_cases h1 : s.slug = sl
        · have hb : (fun x => Section'.slug x == sl) s = true := by simp [h1]
          rw [if_neg h0, find?_cons_pos _ s secs.reverse hb, ← h1,
            jsGet_jsObjSet_self]
        · have hb : (fun x => Section'.slug x == sl) s = false := by simp [h1]
          rw [if_neg h0, find?_cons_neg _ s secs.reverse hb,
            jsGet_jsObjSet_ne _ _ _ _ (Ne.symm h1)]
          exact ih

lemma jsGet_buildBySlug_isSome (sections : List Section') (sl : String)
    (h : sl ≠ "") :
    (jsGet (buildBySlug sections) sl).isSome ↔
      sl ∈ sections.map Section'.slug := by
  rw [jsGet_buildBySlug sections sl h, List.find?_isSome]
  constructor
  · rintro ⟨x, hx, hsl⟩
    rw [List.mem_reverse] at hx
    exact List.mem_map.mpr ⟨x, hx, by simpa using hsl⟩
  · intro hm
    rcases List.mem_map.mp hm with ⟨x, hx, hsl⟩
    exact ⟨x, List.mem_reverse.mpr hx, by simp [hsl]⟩

lemma mem_insertByKey {α : Type} (keyOf : α → Int) (a b : α) (l : List α) :
    a ∈ insertByKey keyOf b l ↔ a = b ∨ a ∈ l := by
  induction l with
  | nil => simp [insertByKey]
  | cons c l ih =>
      by_cases h : keyOf b ≤ keyOf c
      · simp [insertByKey, h]
      · simp [insertByKey, h, ih]
        tauto

lemma mem_sortByKey {α : Type} (keyOf : α → Int) (a : α) (l : List α) :
    a ∈ sortByKey keyOf l ↔ a ∈ l := by
  induction l with
  | nil => simp [sortByKey]
  | cons b l ih => simp [sortByKey, mem_insertByKey, ih]

lemma pairwise_insertByKey {α : Type} (keyOf : α → Int) (a : α) (l : List α)
    (h : l.Pairwise (fun x y => keyOf x ≤ keyOf y)) :
    (insertByKey keyOf a l).Pairwise (fun x y => keyOf x ≤ keyOf y) := by
  induction l with
  | nil => simp [insertByKey]
  | cons b l ih =>
      rcases List.pairwise_cons.mp h with ⟨hb, hl⟩
      by_cases hab : keyOf a ≤ keyOf b
      · rw [insertByKey, if_pos hab]
        refine List.pairwise_cons.mpr ⟨?_, h⟩
        intro x hx
        rcases List.mem_cons.mp hx with rfl | hx
        · exact hab
        · exact le_trans hab (hb x hx)
      · rw [insertByKey, if_neg hab]
        refine List.pairwise_cons.mpr ⟨?_, ih hl⟩
        intro x hx
        rcases (mem_insertByKey keyOf x a l).mp hx with rfl | hx
        · exact le_of_lt (lt_of_not_le hab)
        · exact hb x hx

lemma pairwise_sortByKey {α : Type} (keyOf : α → Int) (l : List α) :
    (sortByKey keyOf l).Pairwise (fun x y => keyOf x ≤ keyOf y) := by
  induction l with
  | nil => simp [sortByKey]
  | cons a l ih => exact pairwise_insertByKey keyOf a _ ih

lemma filter_insertByKey {α : Type} (keyOf : α → Int) (a : α) (l : List α)
    (k : Int) :
    (insertByKey keyOf a l).filter (fun x => decide (keyOf x = k)) =
      if keyOf a = k then a :: l.filter (fun x => decide (keyOf x = k))
      else l.filter (fun x => decide (keyOf x = k)) := by
  induction l with
  | nil =>
      by_cases ha : keyOf a = k <;> simp [insertByKey, List.filter, ha]
  | cons b l ih =>
      by_cases hab : keyOf a ≤ keyOf b
      · rw [insertByKey, if_pos hab]
        by_cases ha : keyOf a = k <;>
          by_cases hb : keyOf b = k <;>
            simp [List.filter, ha, hb]
      · rw [insertByKey, if_neg hab]
        have hba : keyOf b < keyOf a := lt_of_not_le hab
        by_cases ha : keyOf a = k
        · have hb : keyOf b ≠ k := by
            rw [← ha]
            exact ne_of_lt hba
          simp [List.filter, hb, ih, ha]
        · by_cases hb : keyOf b = k <;> simp [List.filter, hb, ih, ha]

lemma filter_sortByKey {α : Type} (keyOf : α → Int) (l : List α) (k : Int) :
    (sortByKey keyOf l).filter (fun x => decide (keyOf x = k)) =
      l.filter (fun x => decide (keyOf x = k)) := by
  induction l with
  | nil => simp [sortByKey]
  | cons a l ih =>
      rw [sortByKey, filter_insertByKey]
      by_cases ha : keyOf a = k <;> simp [List.filter, ha, ih]

lemma scrUpdateOnce_isAnimating (c : Nat → Bool) (p : Nat → Nat)
    (s : Scrambler) (h : s.isAnimating = false) :
    (scrUpdateOnce c p s).isAnimating = false := by
  simp only [scrUpdateOnce]
  split <;> simp [h]

lemma scrSetText_isAnimating (s : Scrambler) (o n : String)
    (rs re : Nat → Nat) (c : Nat → Bool) (p : Nat → Nat)
    (h : s.isAnimating = false) :
    (scrSetText s o n rs re c p).isAnimating = false := by
  unfold scrSetText
  rw [h]
  simp only [Bool.false_eq_true, if_false]
  exact scrUpdateOnce_isAnimating c p _ rfl

lemma scrStep_isAnimating (s : Scrambler) (op : ScrOp)
    (h : s.isAnimating = false) : (scrStep s op).isAnimating = false := by
  cases op with
  | setT o n rs re c p => exact scrSetText_isAnimating s o n rs re c p h
  | frameT c p =>
      by_cases hf : s.frameReq = true
      · simpa [scrStep, hf] using scrUpdateOnce_isAnimating c p s h
      · simp [scrStep, hf, h]
  | cleanupT => rfl

lemma scrRun_foldl_isAnimating (ops : List ScrOp) (s : Scrambler)
    (h : s.isAnimating = false) :
    (ops.foldl scrStep s).isAnimating = false := by
  induction ops generalizing s with
  | nil => exact h
  | cons op ops ih => exact ih _ (scrStep_isAnimating s op h)

lemma rearmAuto_paused (cfg : SliderCfg) (t : Int) (st : SliderSt) :
    (rearmAuto cfg t st).paused = st.paused := by
  unfold rearmAuto; split <;> rfl

lemma rearmAuto_lastNav (cfg : SliderCfg) (t : Int) (st : SliderSt) :
    (rearmAuto cfg t st).lastNav = st.lastNav := by
  unfold rearmAuto; split <;> rfl

lemma rearmAuto_resumeAt (cfg : SliderCfg) (t : Int) (st : SliderSt) :
    (rearmAuto cfg t st).resumeAt = st.resumeAt := by
  unfold rearmAuto; split <;> rfl

lemma rearmAuto_of_paused (cfg : SliderCfg) (t : Int) (st : SliderSt)
    (h : st.paused = true) :
    rearmAuto cfg t st = { st with autoAt := none } := by
  unfold rearmAuto
  rw [if_neg]
  simp [h]

lemma rearmAuto_of_active (cfg : SliderCfg) (t : Int) (st : SliderSt)
    (hi : cfg.intervalMs ≠ 0) (hc : 1 < cfg.count) (h : st.paused = false) :
    rearmAuto cfg t st =
      { st with
        autoAt := some (t + max cfg.intervalMs (cfg.intervalMs - (t - st.lastNav))) } := by
  unfold rearmAuto
  rw [if_pos ⟨hi, hc, h⟩]

lemma sliderStep_nav (cfg : SliderCfg) (st : SliderSt) (d : Bool) (t : Int)
    (hc : ¬ cfg.count = 0) (hr : st.paused = false ∨ st.lastNav ≠ t) :
    sliderStep cfg st (.nav d t) =
      rearmAuto cfg t
        { st with
          paused := true
          index := (if d then (st.index + 1) % cfg.count else (st.index + cfg.count - 1) % cfg.count)
          lastNav := t
          resumeAt := st.resumeAt ++ [t + 3000] } := by
  simp only [sliderStep, if_neg hc, if_pos hr]

lemma sliderStep_resumeFire (cfg : SliderCfg) (st : SliderSt) (t : Int)
    (hmem : t ∈ st.resumeAt) (hp : st.paused = true) :
    sliderStep cfg st (.resumeFire t) =
      rearmAuto cfg t
        { st with paused := false, resumeAt := st.resumeAt.erase t } := by
  simp only [sliderStep, if_pos hmem, hp]
  simp

lemma requireSection_of_some (m : List (String × Section')) (sl : String)
    (s : Section') (h : jsGet m sl = some s) :
    requireSection m sl = .ok s := by
  simp [requireSection, h]

lemma requireSection_of_none (m : List (String × Section')) (sl : String)
    (h : jsGet m sl = none) :
    requireSection m sl = .error ("Missing section: " ++ sl) := by
  simp [requireSection, h]

lemma requireSectionId_of_some (m : List (String × Section')) (sl : String)
    (s : Section') (h : jsGet m sl = some s) (hid : s.id ≠ "") :
    requireSectionId m sl = .ok s.id := by
  simp [requireSectionId, h, hid]

lemma requireSectionId_of_missing (m : List (String × Section'))
    (sl : String) (h : ¬ ∃ s, jsGet m sl = some s ∧ s.id ≠ "") :
    requireSectionId m sl = .error ("Missing section slug: " ++ sl) := by
  cases hg : jsGet m sl with
  | none => simp [requireSectionId, hg]
  | some s =>
      have hid : s.id = "" := by
        by_contra hne
        exact h ⟨s, hg, hne⟩
      simp [requireSectionId, hg, hid]

lemma jsGet_buildBySlug_some_of_mem (sections : List Section') (sl : String)
    (hne : sl ≠ "") (hm : sl ∈ sections.map Section'.slug) :
    ∃ s, jsGet (buildBySlug sections) sl = some s :=
  Option.isSome_iff_exists.mp
    ((jsGet_buildBySlug_isSome sections sl hne).mpr hm)

lemma jsGet_buildBySlug_none_of_not_mem (sections : List Section')
    (sl : String) (hne : sl ≠ "") (hm : sl ∉ sections.map Section'.slug) :
    jsGet (buildBySlug sections) sl = none := by
  rcases hg : jsGet (buildBySlug sections) sl with _ | s
  · rfl
  · exact absurd ((jsGet_buildBySlug_isSome sections sl hne).mp
      (by rw [hg]; rfl)) hm

/-! ## Claim theorems -/

/-- C6: after `set(k, d)` at time `tset`, `getFresh(k)` at a read time
within the 60,000 ms TTL returns `d`; once more than the TTL has
elapsed `getFresh(k)` returns null while `getAny(k)` still returns `d`. -/
theorem c6_cache_set_then_get {α : Type} (store : CacheStore α) (k : String)
    (d : α) (tset tread : Int) :
    (tread - tset ≤ CACHE_TTL →
      getCachedFresh (setCached store k d tset) k tread = some d) ∧
    (CACHE_TTL < tread - tset →
      getCachedFresh (setCached store k d tset) k tread = none ∧
      getCachedAny (setCached store k d tset) k = some d) := by
  have he : getCachedEntry (setCached store k d tset) k = some (d, tset) := by
    simp [getCachedEntry, setCached, jsGet_jsObjSet_self]
  refine ⟨fun h => ?_, fun h => ⟨?_, ?_⟩⟩
  · simp only [getCachedFresh, he]
    rw [if_neg (by omega)]
  · simp only [getCachedFresh, he]
    rw [if_pos (by omega)]
  · simp [getCachedAny, he]

/-- C6 witness: concrete instances of both TTL branches. -/
theorem c6_cache_set_then_get_witness :
    ((1000 : Int) - 0 ≤ CACHE_TTL ∧
      getCachedFresh (setCached ([] : CacheStore Nat) "k" 42 0) "k" 1000 =
        some 42) ∧
    (CACHE_TTL < (70000 : Int) - 0 ∧
      getCachedFresh (setCached ([] : CacheStore Nat) "k" 42 0) "k" 70000 =
        none ∧
      getCachedAny (setCached ([] : CacheStore Nat) "k" 42 0) "k" = some 42) :=
  ⟨⟨by decide, (c6_cache_set_then_get [] "k" 42 0 1000).1 (by decide)⟩,
   ⟨by decide, (c6_cache_set_then_get [] "k" 42 0 70000).2 (by decide)⟩⟩

/-- C1 counterexample: with a cache entry that exists but is stale
(written at 0, read at 60001 > TTL) and a failing fetch, the loaded
flag ends up false even though a cache entry exists — the orchestrator
does not fall back to stale entries. -/
theorem c1_stale_cache_counterexample :
    (load
        [(BOOTSTRAP_CACHE_KEY "",
          CacheBlob.valid (⟨["a.jpg"], [], [], [], [], []⟩ : Bundle) 0)]
        (BOOTSTRAP_CACHE_KEY "") 60001 none).1.dataLoaded = false ∧
    getCachedAny
        [(BOOTSTRAP_CACHE_KEY "",
          CacheBlob.valid (⟨["a.jpg"], [], [], [], [], []⟩ : Bundle) 0)]
        (BOOTSTRAP_CACHE_KEY "") =
      some ⟨["a.jpg"], [], [], [], [], []⟩ := by
  decide

/-- C1 (amended): on a failing fetch the orchestrator falls back to the
*fresh* cache entry only: the loaded flag is true exactly when
`getCachedFresh` finds an entry, the six states are then populated from
that entry, and the flag stays false otherwise (stale entries — visible
only to the unused `getCachedAny` — are ignored); the store is left
unchanged. -/
theorem c1_fetch_failure_fresh_cache_only (store : CacheStore Bundle)
    (key : String) (now : Int) :
    ((load store key now none).1.dataLoaded = true ↔
      (getCachedFresh store key now).isSome) ∧
    (∀ b, getCachedFresh store key now = some b →
      (load store key now none).1 = applyBundle b) ∧
    (getCachedFresh store key now = none →
      (load store key now none).1.dataLoaded = false) ∧
    (load store key now none).2 = store := by
  cases h : getCachedFresh store key now with
  | none => simp [load, h]
  | some b => simp [load, h, applyBundle]

/-- C1 witness: a fresh entry (written at 0, read at 1000) with a
failing fetch populates the state from the cache. -/
theorem c1_fetch_failure_fresh_cache_only_witness :
    getCachedFresh
        [(BOOTSTRAP_CACHE_KEY "",
          CacheBlob.valid (⟨["a.jpg"], [], [], [], [], []⟩ : Bundle) 0)]
        (BOOTSTRAP_CACHE_KEY "") 1000 =
      some ⟨["a.jpg"], [], [], [], [], []⟩ ∧
    (load
        [(BOOTSTRAP_CACHE_KEY "",
          CacheBlob.valid (⟨["a.jpg"], [], [], [], [], []⟩ : Bundle) 0)]
        (BOOTSTRAP_CACHE_KEY "") 1000 none).1 =
      applyBundle ⟨["a.jpg"], [], [], [], [], []⟩ :=
  ⟨by decide,
   (c1_fetch_failure_fresh_cache_only
      [(BOOTSTRAP_CACHE_KEY "",
        CacheBlob.valid (⟨["a.jpg"], [], [], [], [], []⟩ : Bundle) 0)]
      (BOOTSTRAP_CACHE_KEY "") 1000).2.1 _ (by decide)⟩

/-- C3 counterexample: a live post whose slug is the empty string still
produces a map key (the empty-string key), so the key set is not the
set of *non-empty* slugs. -/
theorem c3_empty_slug_counterexample :
    (liveDetailMapOf [{ slug := "", title := "t" }]).map Prod.fst = [""] ∧
    (([({ slug := "", title := "t" } : Post)].filter
        (fun q => q.slug != "")).map Post.slug) = [] := by
  decide

/-- C3 (amended): the key set of the live detail map equals the set of
*all* slugs among the live posts (an empty slug yields the empty-string
key), and the entry stored under a slug is the one of the last post in
input order carrying that slug (last-write-wins). -/
theorem c3_keys_and_last_write_wins (posts : List Post) (s : String) :
    (s ∈ (liveDetailMapOf posts).map Prod.fst ↔ s ∈ posts.map Post.slug) ∧
    jsGet (liveDetailMapOf posts) s =
      (posts.reverse.find? (fun p => p.slug == s)).map liveDetailOf := by
  refine ⟨?_, jsGet_liveDetailMapOf posts s⟩
  rw [← jsGet_isSome_iff_mem_keys, jsGet_liveDetailMapOf posts s]
  cases hf : posts.reverse.find? (fun p => p.slug == s) with
  | none =>
      simp only [Option.map_none', Option.isSome_none, Bool.false_eq_true,
        false_iff]
      intro hm
      rcases List.mem_map.mp hm with ⟨p, hp, hps⟩
      have : posts.reverse.find? (fun p => p.slug == s) ≠ none := by
        rw [ne_eq, List.find?_eq_none]
        push_neg
        exact ⟨p, List.mem_reverse.mpr hp, by simp [hps]⟩
      exact this hf
  | some p =>
      simp only [Option.map_some', Option.isSome_some, true_iff]
      have hps : p.slug = s := by simpa using List.find?_some hf
      exact List.mem_map.mpr
        ⟨p, List.mem_reverse.mp (List.mem_of_find?_eq_some hf), hps⟩

/-- C10: an entry stored under a non-empty slug has a non-empty title,
because the builder falls back to the post's slug when the title is
empty (`p.title || p.slug`). -/
theorem c10_title_fallback (posts : List Post) (s : String) (e : LiveDetail)
    (hget : jsGet (liveDetailMapOf posts) s = some e) (hs : s ≠ "") :
    e.title ≠ "" ∧
    ∃ p ∈ posts, p.slug = s ∧
      e.title = (if p.title = "" then p.slug else p.title) := by
  rw [jsGet_liveDetailMapOf] at hget
  cases hf : posts.reverse.find? (fun p => p.slug == s) with
  | none => rw [hf] at hget; simp at hget
  | some p =>
      rw [hf] at hget
      simp only [Option.map_some', Option.some.injEq] at hget
      have hps : p.slug = s := by simpa using List.find?_some hf
      have hmem : p ∈ posts :=
        List.mem_reverse.mp (List.mem_of_find?_eq_some hf)
      have htitle : e.title = if p.title = "" then p.slug else p.title := by
        rw [← hget]; rfl
      refine ⟨?_, p, hmem, hps, htitle⟩
      rw [htitle]
      by_cases ht : p.title = ""
      · simpa [ht, hps] using hs
      · simp only [if_neg ht]
        exact ht

/-- C10 witness: a post with empty title and slug `x` yields an entry
titled `x`. -/
theorem c10_title_fallback_witness :
    jsGet (liveDetailMapOf [({ slug := "x" } : Post)]) "x" =
      some (liveDetailOf { slug := "x" }) ∧
    ("x" : String) ≠ "" ∧
    (liveDetailOf ({ slug := "x" } : Post)).title ≠ "" :=
  ⟨by decide, by decide,
   (c10_title_fallback [{ slug := "x" }] "x" (liveDetailOf { slug := "x" })
      (by decide) (by decide)).1⟩

/-- C4 counterexample: a release post with a link block and a title but
no image block is kept in `releases` (with an empty image), so lacking
an image block does not exclude a release post. -/
theorem c4_missing_image_kept_counterexample :
    firstBlockOfType ({ title := "t", blocks := some [{ type := "link", content := "h" }] } : Post).blocks "image" = none ∧
    releasesOf [{ title := "t", blocks := some [{ type := "link", content := "h" }] }] =
      [{ href := "h", title := "t", image := "", order := 0 }] := by
  decide

/-- C4 (amended): a release row is in `releases` exactly when it comes
from a post with non-empty first-link content and non-empty title (the
image block plays no part in the filter); a contact row is in
`contactLinks` exactly when its label and link content are non-empty.
A post lacking a link block has an empty href in both paths, hence is
excluded. -/
theorem c4_filter_characterization (posts : List Post) (r : Release)
    (c : ContactLink) :
    (r ∈ releasesOf posts ↔
      ∃ p ∈ posts, releaseRowOf p = r ∧ r.href ≠ "" ∧ r.title ≠ "") ∧
    (c ∈ contactLinksOf posts ↔
      ∃ p ∈ posts, contactRowOf p = c ∧ c.label ≠ "" ∧ c.href ≠ "") ∧
    (∀ p : Post, firstBlockOfType p.blocks "link" = none →
      (releaseRowOf p).href = "" ∧ (contactRowOf p).href = "") := by
  refine ⟨?_, ?_, ?_⟩
  · rw [releasesOf, mem_sortByKey, releasesPre]
    simp only [List.mem_filter, List.mem_map, Bool.and_eq_true, bne_iff_ne,
      ne_eq]
    tauto
  · rw [contactLinksOf, mem_sortByKey, contactLinksPre]
    simp only [List.mem_filter, List.mem_map, Bool.and_eq_true, bne_iff_ne,
      ne_eq]
    tauto
  · intro p h
    exact ⟨by simp [releaseRowOf, h], by simp [contactRowOf, h]⟩

/-- C4 witness: a post without a link block yields empty hrefs in both
row constructors. -/
theorem c4_filter_characterization_witness :
    firstBlockOfType ({ title := "t" } : Post).blocks "link" = none ∧
    ((releaseRowOf { title := "t" }).href = "" ∧
      (contactRowOf { title := "t" }).href = "") :=
  ⟨by decide,
   (c4_filter_characterization [] ⟨"", "", "", 0⟩ ⟨0, "", "", false⟩).2.2
     { title := "t" } (by decide)⟩

/-- C7: the four ordered view models are sorted ascending by `order`
(non-strict: equal keys are allowed), entries with equal order keys
keep the relative order of the pre-sort mapped-and-filtered post list,
and each row constructor treats a missing `order` as 0. -/
theorem c7_builders_sorted_stable (posts : List Post) (k : Int) :
    ((releasesOf posts).Pairwise (fun a b => a.order ≤ b.order) ∧
      (releasesOf posts).filter (fun r => decide (r.order = k)) =
        (releasesPre posts).filter (fun r => decide (r.order = k))) ∧
    ((liveProjectsOf posts).Pairwise (fun a b => a.order ≤ b.order) ∧
      (liveProjectsOf posts).filter (fun r => decide (r.order = k)) =
        (liveProjectsPre posts).filter (fun r => decide (r.order = k))) ∧
    ((bioSectionsOf posts).Pairwise (fun a b => a.order ≤ b.order) ∧
      (bioSectionsOf posts).filter (fun s => decide (s.order = k)) =
        (bioSectionsPre posts).filter (fun s => decide (s.order = k))) ∧
    ((contactLinksOf posts).Pairwise (fun a b => a.order ≤ b.order) ∧
      (contactLinksOf posts).filter (fun l => decide (l.order = k)) =
        (contactLinksPre posts).filter (fun l => decide (l.order = k))) ∧
    (∀ p : Post,
      (releaseRowOf p).order = p.order.getD 0 ∧
      (liveCardOf p).order = p.order.getD 0 ∧
      (bioRowOf p).order = p.order.getD 0 ∧
      (contactRowOf p).order = p.order.getD 0) :=
  ⟨⟨pairwise_sortByKey _ _, filter_sortByKey _ _ k⟩,
   ⟨pairwise_sortByKey _ _, filter_sortByKey _ _ k⟩,
   ⟨pairwise_sortByKey _ _, filter_sortByKey _ _ k⟩,
   ⟨pairwise_sortByKey _ _, filter_sortByKey _ _ k⟩,
   fun _ => ⟨rfl, rfl, rfl, rfl⟩⟩

/-- C5 (code bug): `isAnimating` is never assigned `true`, so the
`if (this.isAnimating) return` guard in `setText` is dead — every
reachable scrambler state has `isAnimating = false` — and a `setText`
arriving while an animation is in flight (frame request pending, here
after one animation frame with all characters still in their windows)
rebuilds the per-character queue and resets the frame counter instead
of being ignored. -/
theorem c5_second_settext_restarts :
    (∀ ops : List ScrOp, (scrRun ops).isAnimating = false) ∧
    ((scrRun [.setT "ab" "ab" (fun _ => 5) (fun _ => 10) (fun _ => false)
          (fun _ => 0),
        .frameT (fun _ => false) (fun _ => 0)]).frameReq = true ∧
      (scrRun [.setT "ab" "ab" (fun _ => 5) (fun _ => 10) (fun _ => false)
          (fun _ => 0),
        .frameT (fun _ => false) (fun _ => 0)]).frame = 2 ∧
      (scrRun [.setT "ab" "ab" (fun _ => 5) (fun _ => 10) (fun _ => false)
          (fun _ => 0),
        .frameT (fun _ => false) (fun _ => 0),
        .setT "ab" "cd" (fun _ => 5) (fun _ => 10) (fun _ => false)
          (fun _ => 0)]).frame = 1 ∧
      (scrRun [.setT "ab" "ab" (fun _ => 5) (fun _ => 10) (fun _ => false)
          (fun _ => 0),
        .frameT (fun _ => false) (fun _ => 0),
        .setT "ab" "cd" (fun _ => 5) (fun _ => 10) (fun _ => false)
          (fun _ => 0)]).queue ≠
        (scrRun [.setT "ab" "ab" (fun _ => 5) (fun _ => 10) (fun _ => false)
            (fun _ => 0),
          .frameT (fun _ => false) (fun _ => 0)]).queue) := by
  exact ⟨fun ops => scrRun_foldl_isAnimating ops scrInit rfl,
    by decide, by decide, by decide, by decide⟩

/-- C2 counterexample: a 3-image slider with `intervalMs = 1000`;
`next()` at 0 then a second manual navigation at 2000 (within the
3000 ms window). The first navigation's pause-clear timer fires at
3000 = 0 + 3000 and un-pauses the slider before 2000 + 3000 = 5000,
and the re-armed autoplay timeout then advances the index at
4000 < 5000 — so autoplay neither stays paused nor advance-free until
3000 ms after the last manual call. -/
theorem c2_pause_counterexample :
    (sliderRun ⟨3, 1000⟩ [.nav true 0, .nav true 2000]).resumeAt =
      [3000, 5000] ∧
    (sliderRun ⟨3, 1000⟩
        [.nav true 0, .nav true 2000, .resumeFire 3000]).paused = false ∧
    (sliderRun ⟨3, 1000⟩
        [.nav true 0, .nav true 2000, .resumeFire 3000]).autoAt =
      some 4000 ∧
    (sliderRun ⟨3, 1000⟩
        [.nav true 0, .nav true 2000, .resumeFire 3000,
          .autoFire 4000]).index ≠
      (sliderRun ⟨3, 1000⟩
        [.nav true 0, .nav true 2000, .resumeFire 3000]).index ∧
    (3000 : Int) < 2000 + 3000 ∧ (4000 : Int) < 2000 + 3000 := by
  decide

/-- C2 (amended): after `next()` at `t1` and a second manual navigation
at `t2 < t1 + 3000`, the slider is paused after each navigation, both
pause-clear timers stay armed, and the *first* navigation's timer
firing at `t1 + 3000` clears the pause — 3000 ms after the first
manual call, not the last. The autoplay timeout re-armed at that
moment fires `intervalMs` later, at `t1 + 3000 + intervalMs`, which is
at or after `t2 + 3000` exactly when `intervalMs ≥ t2 - t1` (true for
the repository's 5000 and 6000 ms sliders). -/
theorem c2_pause_clears_after_first_nav (c : Nat) (i t1 t2 : Int)
    (d1 d2 : Bool) (hc : 2 ≤ c) (hi : 0 < i) (h12 : t1 < t2)
    (h23 : t2 < t1 + 3000) :
    (sliderRun ⟨c, i⟩ [.nav d1 t1]).paused = true ∧
    (sliderRun ⟨c, i⟩ [.nav d1 t1, .nav d2 t2]).paused = true ∧
    (sliderRun ⟨c, i⟩ [.nav d1 t1, .nav d2 t2]).resumeAt =
      [t1 + 3000, t2 + 3000] ∧
    (sliderRun ⟨c, i⟩
        [.nav d1 t1, .nav d2 t2, .resumeFire (t1 + 3000)]).paused = false ∧
    (sliderRun ⟨c, i⟩
        [.nav d1 t1, .nav d2 t2, .resumeFire (t1 + 3000)]).autoAt =
      some (t1 + 3000 + i) ∧
    (t2 - t1 ≤ i → t2 + 3000 ≤ t1 + 3000 + i) := by
  have hcne : ¬ ((⟨c, i⟩ : SliderCfg).count = 0) := by
    show ¬ (c = 0)
    omega
  have hine : (⟨c, i⟩ : SliderCfg).intervalMs ≠ 0 := by
    show i ≠ 0
    omega
  have hclt : 1 < (⟨c, i⟩ : SliderCfg).count := by
    show 1 < c
    omega
  have hs0p : (sliderInit ⟨c, i⟩).paused = false := by
    simp [sliderInit, rearmAuto_paused]
  have hs0r : (sliderInit ⟨c, i⟩).resumeAt = [] := by
    simp [sliderInit, rearmAuto_resumeAt]
  -- step 1: first navigation at t1
  have e1 : sliderRun ⟨c, i⟩ [.nav d1 t1] =
      sliderStep ⟨c, i⟩ (sliderInit ⟨c, i⟩) (.nav d1 t1) := rfl
  have h1 : sliderRun ⟨c, i⟩ [.nav d1 t1] =
      { sliderInit ⟨c, i⟩ with
        paused := true
        index := (if d1 then ((sliderInit ⟨c, i⟩).index + 1) % c else ((sliderInit ⟨c, i⟩).index + c - 1) % c)
        lastNav := t1
        resumeAt := (sliderInit ⟨c, i⟩).resumeAt ++ [t1 + 3000]
        autoAt := none } := by
    rw [e1, sliderStep_nav _ _ _ _ hcne (Or.inl hs0p),
      rearmAuto_of_paused _ _ _ rfl]
  have h1p : (sliderRun ⟨c, i⟩ [.nav d1 t1]).paused = true := by
    rw [h1]
  have h1n : (sliderRun ⟨c, i⟩ [.nav d1 t1]).lastNav = t1 := by
    rw [h1]
  have h1r : (sliderRun ⟨c, i⟩ [.nav d1 t1]).resumeAt = [t1 + 3000] := by
    rw [h1]
    simp [hs0r]
  -- step 2: second navigation at t2
  have e2 : sliderRun ⟨c, i⟩ [.nav d1 t1, .nav d2 t2] =
      sliderStep ⟨c, i⟩ (sliderRun ⟨c, i⟩ [.nav d1 t1]) (.nav d2 t2) := rfl
  have h2 : sliderRun ⟨c, i⟩ [.nav d1 t1, .nav d2 t2] =
      { sliderRun ⟨c, i⟩ [.nav d1 t1] with
        paused := true
        index := (if d2 then ((sliderRun ⟨c, i⟩ [.nav d1 t1]).index + 1) % c else ((sliderRun ⟨c, i⟩ [.nav d1 t1]).index + c - 1) % c)
        lastNav := t2
        resumeAt := (sliderRun ⟨c, i⟩ [.nav d1 t1]).resumeAt ++ [t2 + 3000]
        autoAt := none } := by
    rw [e2, sliderStep_nav _ _ _ _ hcne
      (Or.inr (by rw [h1n]; omega)), rearmAuto_of_paused _ _ _ rfl]
  have h2p : (sliderRun ⟨c, i⟩ [.nav d1 t1, .nav d2 t2]).paused = true := by
    rw [h2]
  have h2n : (sliderRun ⟨c, i⟩ [.nav d1 t1, .nav d2 t2]).lastNav = t2 := by
    rw [h2]
  have h2r : (sliderRun ⟨c, i⟩ [.nav d1 t1, .nav d2 t2]).resumeAt =
      [t1 + 3000, t2 + 3000] := by
    rw [h2]
    simp [h1r]
  -- step 3: the first pause-clear timer fires at t1 + 3000
  have e3 : sliderRun ⟨c, i⟩ [.nav d1 t1, .nav d2 t2, .resumeFire (t1 + 3000)] =
      sliderStep ⟨c, i⟩ (sliderRun ⟨c, i⟩ [.nav d1 t1, .nav d2 t2])
        (.resumeFire (t1 + 3000)) := rfl
  have hmem : t1 + 3000 ∈ (sliderRun ⟨c, i⟩ [.nav d1 t1, .nav d2 t2]).resumeAt := by
    rw [h2r]
    exact List.mem_cons_self _ _
  have h3 : sliderRun ⟨c, i⟩ [.nav d1 t1, .nav d2 t2, .resumeFire (t1 + 3000)] =
      rearmAuto ⟨c, i⟩ (t1 + 3000)
        { sliderRun ⟨c, i⟩ [.nav d1 t1, .nav d2 t2] with
          paused := false
          resumeAt := (sliderRun ⟨c, i⟩ [.nav d1 t1, .nav d2 t2]).resumeAt.erase (t1 + 3000) } := by
    rw [e3, sliderStep_resumeFire _ _ _ hmem h2p]
  have h3p : (sliderRun ⟨c, i⟩
      [.nav d1 t1, .nav d2 t2, .resumeFire (t1 + 3000)]).paused = false := by
    rw [h3, rearmAuto_paused]
  have h3a : (sliderRun ⟨c, i⟩
      [.nav d1 t1, .nav d2 t2, .resumeFire (t1 + 3000)]).autoAt =
      some (t1 + 3000 + i) := by
    rw [h3, rearmAuto_of_active _ _ _ hine hclt rfl]
    dsimp only
    rw [h2n, max_eq_left (by omega)]
  exact ⟨h1p, h2p, h2r, h3p, h3a, fun h => by omega⟩

/-- C2 witness: the amended contract at `c = 3`, `intervalMs = 6000`
(the landing slider), `t1 = 100`, `t2 = 1100`. -/
theorem c2_pause_clears_after_first_nav_witness :
    ((2 ≤ 3 ∧ (0 : Int) < 6000 ∧ (100 : Int) < 1100 ∧
        (1100 : Int) < 100 + 3000) ∧
      (sliderRun ⟨3, 6000⟩ [.nav true 100, .nav false 1100]).paused = true ∧
      (sliderRun ⟨3, 6000⟩
          [.nav true 100, .nav false 1100, .resumeFire (100 + 3000)]).autoAt =
        some (100 + 3000 + 6000)) :=
  ⟨⟨by decide, by decide, by decide, by decide⟩,
   (c2_pause_clears_after_first_nav 3 6000 100 1100 true false (by decide)
      (by decide) (by decide) (by decide)).2.1,
   (c2_pause_clears_after_first_nav 3 6000 100 1100 true false (by decide)
      (by decide) (by decide) (by decide)).2.2.2.2.1⟩

/-- C8: video classification. In both the live-detail block path and
the row path with no explicit type, the YouTube watch URL classifies as
an iframe and the rooted `.mp4` path as a plain video; content that
trims to empty classifies as null in both paths; and the row path
trusts an explicit type whenever it is present (non-empty after
trimming and lowercasing) and not `none`. -/
theorem c8_video_classification :
    (classifyVideo "https://www.youtube.com/watch?v=x" "T" =
      some ⟨"iframe", "https://www.youtube.com/watch?v=x", "T"⟩) ∧
    (inferVideo { video_src := "https://www.youtube.com/watch?v=x", title := "T" } =
      some ⟨"iframe", "https://www.youtube.com/watch?v=x", "T"⟩) ∧
    (classifyVideo "/videos/clip.mp4" "T" =
      some ⟨"video", "/videos/clip.mp4", "T"⟩) ∧
    (inferVideo { video_src := "/videos/clip.mp4", title := "T" } =
      some ⟨"video", "/videos/clip.mp4", "T"⟩) ∧
    (∀ s t : String, jsTrim s = "" → classifyVideo s t = none) ∧
    (∀ row : VideoRow, jsTrim row.video_src = "" → inferVideo row = none) ∧
    (∀ row : VideoRow, jsTrim row.video_src ≠ "" →
      jsToLower (jsTrim row.video_type) ≠ "" →
      jsToLower (jsTrim row.video_type) ≠ "none" →
      inferVideo row =
        some ⟨jsToLower (jsTrim row.video_type), jsTrim row.video_src,
          if row.video_title ≠ "" then row.video_title else row.title⟩) := by
  refine ⟨by decide, by decide, by decide, by decide, ?_, ?_, ?_⟩
  · intro s t h
    unfold classifyVideo
    dsimp only
    rw [if_pos h]
  · intro row h
    unfold inferVideo
    dsimp only
    rw [if_pos h]
  · intro row h1 h2 h3
    unfold inferVideo
    dsimp only
    rw [if_neg h1, if_pos ⟨h2, h3⟩]

/-- C8 witness: the empty-content and explicit-type branches at
concrete rows. -/
theorem c8_video_classification_witness :
    (jsTrim "   " = "" ∧ classifyVideo "   " "T" = none) ∧
    (jsTrim ("" : String) = "" ∧
      inferVideo { video_src := "" } = none) ∧
    (jsTrim "x.mp4" ≠ "" ∧ jsToLower (jsTrim "iframe") ≠ "" ∧
      jsToLower (jsTrim "iframe") ≠ "none" ∧
      inferVideo { video_src := "x.mp4", video_type := "iframe", title := "T" } =
        some ⟨"iframe", "x.mp4", "T"⟩) :=
  ⟨⟨by decide, c8_video_classification.2.2.2.2.1 "   " "T" (by decide)⟩,
   ⟨by decide,
    c8_video_classification.2.2.2.2.2.1 { video_src := "" } (by decide)⟩,
   by decide, by decide, by decide,
   by
     have h := c8_video_classification.2.2.2.2.2.2
       { video_src := "x.mp4", video_type := "iframe", title := "T" }
       (by decide) (by decide) (by decide)
     exact h⟩

/-- C9 counterexample: a sections response in which all five required
slugs are present but `landing` carries a falsy id — the bootstrap
script still fails with its missing-section error (and exits non-zero),
so slug presence alone does not guarantee the script raises no such
error. -/
theorem c9_present_slug_falsy_id_counterexample :
    (∀ sl ∈ requiredSlugs,
      sl ∈ ([⟨"", "landing"⟩, ⟨"2", "releases"⟩, ⟨"3", "live"⟩, ⟨"4", "bio"⟩, ⟨"5", "contact"⟩] : List Section').map Section'.slug) ∧
    buildBootstrap [⟨"", "landing"⟩, ⟨"2", "releases"⟩, ⟨"3", "live"⟩, ⟨"4", "bio"⟩, ⟨"5", "contact"⟩] (fun _ => []) =
      .error "Missing section slug: landing" ∧
    scriptExitCode (buildBootstrap [⟨"", "landing"⟩, ⟨"2", "releases"⟩, ⟨"3", "live"⟩, ⟨"4", "bio"⟩, ⟨"5", "contact"⟩] (fun _ => [])) = 1 := by
  exact ⟨by decide, rfl, rfl⟩

/-- C9 (amended): the app builder fails iff a required slug is absent,
with an error naming a missing slug, and succeeds whenever all five
slugs are present; the script builder additionally requires the
resolved section of each required slug to carry a truthy id — it
succeeds when all five do, and otherwise fails naming a slug whose
section is missing or id-less; the script exits 1 exactly on a
rejected build. -/
theorem c9_missing_section_fails (sections : List Section')
    (postsOfA postsOfS : String → List Post) :
    ((∀ sl ∈ requiredSlugs, sl ∈ sections.map Section'.slug) →
      ∃ b, buildDataFromCms sections postsOfA = .ok b) ∧
    ((∃ sl ∈ requiredSlugs, sl ∉ sections.map Section'.slug) →
      ∃ sl ∈ requiredSlugs, sl ∉ sections.map Section'.slug ∧
        buildDataFromCms sections postsOfA =
          .error ("Missing section: " ++ sl)) ∧
    ((∀ sl ∈ requiredSlugs, ∃ s, jsGet (buildBySlug sections) sl = some s ∧
        s.id ≠ "") →
      ∃ b, buildBootstrap sections postsOfS = .ok b) ∧
    ((∃ sl ∈ requiredSlugs, ¬ ∃ s, jsGet (buildBySlug sections) sl = some s ∧
        s.id ≠ "") →
      ∃ sl ∈ requiredSlugs,
        (¬ ∃ s, jsGet (buildBySlug sections) sl = some s ∧ s.id ≠ "") ∧
        buildBootstrap sections postsOfS =
          .error ("Missing section slug: " ++ sl)) ∧
    (∀ e : String, scriptExitCode (.error e) = 1) ∧
    (∀ b : Bundle, scriptExitCode (.ok b) = 0) := by
  refine ⟨?_, ?_, ?_, ?_, fun _ => rfl, fun _ => rfl⟩
  · intro h
    obtain ⟨s1, hs1⟩ := jsGet_buildBySlug_some_of_mem sections "landing"
      (by decide) (h _ (by decide))
    obtain ⟨s2, hs2⟩ := jsGet_buildBySlug_some_of_mem sections "releases"
      (by decide) (h _ (by decide))
    obtain ⟨s3, hs3⟩ := jsGet_buildBySlug_some_of_mem sections "live"
      (by decide) (h _ (by decide))
    obtain ⟨s4, hs4⟩ := jsGet_buildBySlug_some_of_mem sections "bio"
      (by decide) (h _ (by decide))
    obtain ⟨s5, hs5⟩ := jsGet_buildBySlug_some_of_mem sections "contact"
      (by decide) (h _ (by decide))
    refine ⟨⟨landingSlidesOf (postsOfA s1.id), releasesOf (postsOfA s2.id), liveProjectsOf (postsOfA s3.id), liveDetailMapOf (postsOfA s3.id), bioSectionsOf (postsOfA s4.id), contactLinksOf (postsOfA s5.id)⟩, ?_⟩
    simp [buildDataFromCms, requireSection_of_some _ _ _ hs1,
      requireSection_of_some _ _ _ hs2, requireSection_of_some _ _ _ hs3,
      requireSection_of_some _ _ _ hs4, requireSection_of_some _ _ _ hs5,
      Bind.bind, Except.bind, Pure.pure, Except.pure]
  · intro hex
    by_cases m1 : "landing" ∈ sections.map Section'.slug
    · obtain ⟨s1, hs1⟩ := jsGet_buildBySlug_some_of_mem sections "landing"
        (by decide) m1
      by_cases m2 : "releases" ∈ sections.map Section'.slug
      · obtain ⟨s2, hs2⟩ := jsGet_buildBySlug_some_of_mem sections "releases"
          (by decide) m2
        by_cases m3 : "live" ∈ sections.map Section'.slug
        · obtain ⟨s3, hs3⟩ := jsGet_buildBySlug_some_of_mem sections "live"
            (by decide) m3
          by_cases m4 : "bio" ∈ sections.map Section'.slug
          · obtain ⟨s4, hs4⟩ := jsGet_buildBySlug_some_of_mem sections "bio"
              (by decide) m4
            by_cases m5 : "contact" ∈ sections.map Section'.slug
            · obtain ⟨s5, hs5⟩ := jsGet_buildBySlug_some_of_mem sections "contact"
                (by decide) m5
              exfalso
              obtain ⟨sl, hsl, hnm⟩ := hex
              have hfive : sl = "landing" ∨ sl = "releases" ∨ sl = "live" ∨
                  sl = "bio" ∨ sl = "contact" := by
                simpa [requiredSlugs] using hsl
              rcases hfive with rfl | rfl | rfl | rfl | rfl
              · exact hnm m1
              · exact hnm m2
              · exact hnm m3
              · exact hnm m4
              · exact hnm m5
            · refine ⟨"contact", by decide, m5, ?_⟩
              simp [buildDataFromCms, Bind.bind, Except.bind, requireSection_of_some _ _ _ hs1, requireSection_of_some _ _ _ hs2, requireSection_of_some _ _ _ hs3, requireSection_of_some _ _ _ hs4,
                requireSection_of_none _ _
                  (jsGet_buildBySlug_none_of_not_mem sections _ (by decide) m5)]
          · refine ⟨"bio", by decide, m4, ?_⟩
            simp [buildDataFromCms, Bind.bind, Except.bind, requireSection_of_some _ _ _ hs1, requireSection_of_some _ _ _ hs2, requireSection_of_some _ _ _ hs3,
              requireSection_of_none _ _
                (jsGet_buildBySlug_none_of_not_mem sections _ (by decide) m4)]
        · refine ⟨"live", by decide, m3, ?_⟩
          simp [buildDataFromCms, Bind.bind, Except.bind, requireSection_of_some _ _ _ hs1, requireSection_of_some _ _ _ hs2,
            requireSection_of_none _ _
              (jsGet_buildBySlug_none_of_not_mem sections _ (by decide) m3)]
      · refine ⟨"releases", by decide, m2, ?_⟩
        simp [buildDataFromCms, Bind.bind, Except.bind, requireSection_of_some _ _ _ hs1,
          requireSection_of_none _ _
            (jsGet_buildBySlug_none_of_not_mem sections _ (by decide) m2)]
    · refine ⟨"landing", by decide, m1, ?_⟩
      simp [buildDataFromCms, Bind.bind, Except.bind,
        requireSection_of_none _ _
          (jsGet_buildBySlug_none_of_not_mem sections _ (by decide) m1)]
  · intro h
    obtain ⟨s1, hs1, hid1⟩ := h "landing" (by decide)
    obtain ⟨s2, hs2, hid2⟩ := h "releases" (by decide)
    obtain ⟨s3, hs3, hid3⟩ := h "live" (by decide)
    obtain ⟨s4, hs4, hid4⟩ := h "bio" (by decide)
    obtain ⟨s5, hs5, hid5⟩ := h "contact" (by decide)
    refine ⟨⟨landingSlidesOf (postsOfS s1.id), releasesOf (postsOfS s2.id), liveProjectsOf (postsOfS s3.id), liveDetailMapOf (postsOfS s3.id), bioSectionsOf (postsOfS s4.id), contactLinksOf (postsOfS s5.id)⟩, ?_⟩
    simp [buildBootstrap, requireSectionId_of_some _ _ _ hs1 hid1,
      requireSectionId_of_some _ _ _ hs2 hid2,
      requireSectionId_of_some _ _ _ hs3 hid3,
      requireSectionId_of_some _ _ _ hs4 hid4,
      requireSectionId_of_some _ _ _ hs5 hid5, Bind.bind, Except.bind,
      Pure.pure, Except.pure]
  · intro hex
    by_cases m1 : ∃ s, jsGet (buildBySlug sections) "landing" = some s ∧
      s.id ≠ ""
    · obtain ⟨s1, hs1, hid1⟩ := m1
      by_cases m2 : ∃ s, jsGet (buildBySlug sections) "releases" = some s ∧
        s.id ≠ ""
      · obtain ⟨s2, hs2, hid2⟩ := m2
        by_cases m3 : ∃ s, jsGet (buildBySlug sections) "live" = some s ∧
          s.id ≠ ""
        · obtain ⟨s3, hs3, hid3⟩ := m3
          by_cases m4 : ∃ s, jsGet (buildBySlug sections) "bio" = some s ∧
            s.id ≠ ""
          · obtain ⟨s4, hs4, hid4⟩ := m4
            by_cases m5 : ∃ s, jsGet (buildBySlug sections) "contact" = some s ∧
              s.id ≠ ""
            · obtain ⟨s5, hs5, hid5⟩ := m5
              exfalso
              obtain ⟨sl, hsl, hnm⟩ := hex
              have hfive : sl = "landing" ∨ sl = "releases" ∨ sl = "live" ∨
                  sl = "bio" ∨ sl = "contact" := by
                simpa [requiredSlugs] using hsl
              rcases hfive with rfl | rfl | rfl | rfl | rfl
              · exact hnm ⟨s1, hs1, hid1⟩
              · exact hnm ⟨s2, hs2, hid2⟩
              · exact hnm ⟨s3, hs3, hid3⟩
              · exact hnm ⟨s4, hs4, hid4⟩
              · exact hnm ⟨s5, hs5, hid5⟩
            · refine ⟨"contact", by decide, m5, ?_⟩
              simp [buildBootstrap, Bind.bind, Except.bind, requireSectionId_of_some _ _ _ hs1 hid1, requireSectionId_of_some _ _ _ hs2 hid2, requireSectionId_of_some _ _ _ hs3 hid3, requireSectionId_of_some _ _ _ hs4 hid4,
                requireSectionId_of_missing _ _ m5]
          · refine ⟨"bio", by decide, m4, ?_⟩
            simp [buildBootstrap, Bind.bind, Except.bind, requireSectionId_of_some _ _ _ hs1 hid1, requireSectionId_of_some _ _ _ hs2 hid2, requireSectionId_of_some _ _ _ hs3 hid3,
              requireSectionId_of_missing _ _ m4]
        · refine ⟨"live", by decide, m3, ?_⟩
          simp [buildBootstrap, Bind.bind, Except.bind, requireSectionId_of_some _ _ _ hs1 hid1, requireSectionId_of_some _ _ _ hs2 hid2,
            requireSectionId_of_missing _ _ m3]
      · refine ⟨"releases", by decide, m2, ?_⟩
        simp [buildBootstrap, Bind.bind, Except.bind, requireSectionId_of_some _ _ _ hs1 hid1,
          requireSectionId_of_missing _ _ m2]
    · refine ⟨"landing", by decide, m1, ?_⟩
      simp [buildBootstrap, Bind.bind, Except.bind,
        requireSectionId_of_missing _ _ m1]

/-- C9 witness: with all five sections present and carrying truthy ids
both builders succeed; removing `bio` makes the app builder fail with
the error naming it. -/
theorem c9_missing_section_fails_witness :
    (∃ b, buildDataFromCms [⟨"1", "landing"⟩, ⟨"2", "releases"⟩, ⟨"3", "live"⟩, ⟨"4", "bio"⟩, ⟨"5", "contact"⟩] (fun _ => []) = .ok b) ∧
    (∃ b, buildBootstrap [⟨"1", "landing"⟩, ⟨"2", "releases"⟩, ⟨"3", "live"⟩, ⟨"4", "bio"⟩, ⟨"5", "contact"⟩] (fun _ => []) = .ok b) ∧
    (∃ sl ∈ requiredSlugs,
      sl ∉ ([⟨"1", "landing"⟩, ⟨"2", "releases"⟩, ⟨"3", "live"⟩, ⟨"5", "contact"⟩] : List Section').map Section'.slug ∧
      buildDataFromCms [⟨"1", "landing"⟩, ⟨"2", "releases"⟩, ⟨"3", "live"⟩, ⟨"5", "contact"⟩] (fun _ => []) = .error ("Missing section: " ++ sl)) :=
  ⟨(c9_missing_section_fails _ (fun _ => []) (fun _ => [])).1 (by decide),
   (c9_missing_section_fails _ (fun _ => []) (fun _ => [])).2.2.1
     (by decide),
   (c9_missing_section_fails _ (fun _ => []) (fun _ => [])).2.1
     ⟨"bio", by decide, by decide⟩⟩

end Sympaathy
